import Mathlib

/-!
# Verification of the bandstop (notch) filter plugin core

Shallow embedding of `Source/BandstopFilter.cpp`:

* `BandstopFilterSettings` (the per-stream Filter Bank) with its operations
  `createFilters`, `updateFilters`, `setFilterParameters`;
* the processor-level handlers `updateSettings`, `parameterValueChanged`
  and `process`.

Modelling conventions:

* C++ `float`/`double` values (sample rates, cutoffs, filter parameters)
  are modelled as rationals `ℚ`; the claims under verification are exact
  arithmetic identities and frame conditions, not floating-point facts.
* A `Dsp::SmoothedFilterDesign` Filter Instance is modelled by its
  configuration: `none` for a freshly allocated, not yet configured filter,
  `some p` after `setParams` stored the parameter block `p`
  (sample rate, order, center frequency, bandwidth).  The filter's internal
  delay-line state and the coefficient algebra of the DSP library are out
  of scope of the claims (the spec treats them as a library capability),
  so the per-channel in-place sample transform is an arbitrary parameter
  of the `process` model.
* JUCE containers become lists; the processor's per-stream maps
  (`StreamSettings`, the data-stream registry) become functions from the
  stream id.
-/

/-- The `Dsp::Params` block written by `setFilterParameters`:
`params[0] = sampleRate`, `params[1] = order`, `params[2] = center`,
`params[3] = bandwidth`. -/
structure FilterParams where
  sampleRate : ℚ
  order : ℚ
  centerFreq : ℚ
  bandwidth : ℚ
deriving DecidableEq

/-- One Filter Instance of a bank: `none` = freshly allocated (its params
never set), `some p` = configured with parameter block `p`. -/
abbrev FilterInstance := Option FilterParams

/-- Model of `BandstopFilterSettings`: the per-stream Filter Bank, holding the
stream's sample rate and one Filter Instance per channel
(the `OwnedArray<Dsp::Filter> filters`). -/
structure BandstopFilterSettings where
  sampleRate : ℚ
  filters : List FilterInstance
deriving DecidableEq

/-- A default-constructed `BandstopFilterSettings`: no filters yet. -/
def emptySettings : BandstopFilterSettings :=
  { sampleRate := 0, filters := [] }

/-- Model of `BandstopFilterSettings::setFilterParameters(lowCut, highCut, channel)`:
builds the params block (sample rate, order 4,
center `(highCut + lowCut) / 2`, bandwidth `highCut - lowCut`) and stores
it into `filters[channel]` via `setParams`. -/
def setFilterParameters (st : BandstopFilterSettings)
    (lowCut highCut : ℚ) (channel : ℕ) : BandstopFilterSettings :=
  { st with
    filters := st.filters.set channel
      (some { sampleRate := st.sampleRate
              order := 4
              centerFreq := (highCut + lowCut) / 2
              bandwidth := highCut - lowCut }) }

/-- Model of `BandstopFilterSettings::updateFilters(lowCut, highCut)`:
`for (n = 0; n < filters.size(); n++) setFilterParameters(lowCut, highCut, n)`. -/
def updateFilters (st : BandstopFilterSettings)
    (lowCut highCut : ℚ) : BandstopFilterSettings :=
  (List.range st.filters.length).foldl
    (fun s n => setFilterParameters s lowCut highCut n) st

/-- Model of `BandstopFilterSettings::createFilters(numChannels, sampleRate_, lowCut,
highCut)`: stores the sample rate, clears the filter array, adds one freshly
allocated order-4 bandstop filter per channel (`for (n = 0; n < numChannels;
++n)`, so a non-positive `numChannels` adds none), then calls
`updateFilters(lowCut, highCut)`.  The prior contents of the bank are
discarded entirely. -/
def createFilters (_st : BandstopFilterSettings) (numChannels : ℤ)
    (sampleRate_ : ℚ) (lowCut highCut : ℚ) : BandstopFilterSettings :=
  updateFilters
    { sampleRate := sampleRate_
      filters := List.replicate numChannels.toNat none }
    lowCut highCut

/-- The parameter block `updateFilters st lowCut highCut` writes into every
filter slot. -/
def tunedParams (st : BandstopFilterSettings) (lowCut highCut : ℚ) : FilterParams :=
  { sampleRate := st.sampleRate
    order := 4
    centerFreq := (highCut + lowCut) / 2
    bandwidth := highCut - lowCut }

/-- A host float parameter (e.g. `low_cut`, `high_cut`): its current value
together with the previous value the host keeps for
`restorePreviousValue()`. -/
structure FloatParam where
  value : ℚ
  prevValue : ℚ
deriving DecidableEq

/-- Model of `Parameter::restorePreviousValue()`: the current value is replaced by
the stored previous value. -/
def restorePreviousValue (p : FloatParam) : FloatParam :=
  { p with value := p.prevValue }

/-- The stream-scoped cutoff parameters of one data stream
(`(*stream)["low_cut"]`, `(*stream)["high_cut"]`). -/
structure StreamParams where
  lowCut : FloatParam
  highCut : FloatParam
deriving DecidableEq

/-- Which parameter a `parameterValueChanged` notification is about
(`param->getName()`): `low_cut`, `high_cut`, or any other parameter
(e.g. the `Channels` mask), which the handler ignores. -/
inductive EditedParam where
  | lowCutParam
  | highCutParam
  | otherParam
deriving DecidableEq

/-- The processor state seen by `parameterValueChanged`: the per-stream
cutoff parameters (the data-stream registry) and the per-stream filter
banks (the `StreamSettings<BandstopFilterSettings> settings` map), both
keyed by stream id. -/
structure ProcessorState where
  streams : ℕ → StreamParams
  settings : ℕ → BandstopFilterSettings

/-- Model of `BandstopFilter::parameterValueChanged(param)`.  The host has already
written the new value into the parameter (the previous value is kept in
`prevValue`).  For `low_cut`: if `low_cut >= high_cut` the edit is rejected
by `restorePreviousValue()` and the handler returns; otherwise
`settings[currentStream]->updateFilters(low_cut, high_cut)`.  For
`high_cut`: symmetric, rejecting when `high_cut <= low_cut`.  Any other
parameter leaves the state alone. -/
def parameterValueChanged (ps : ProcessorState) (currentStream : ℕ)
    (param : EditedParam) : ProcessorState :=
  match param with
  | .lowCutParam =>
    if (ps.streams currentStream).lowCut.value ≥ (ps.streams currentStream).highCut.value then
      { ps with
        streams := Function.update ps.streams currentStream
          { ps.streams currentStream with
            lowCut := restorePreviousValue (ps.streams currentStream).lowCut } }
    else
      { ps with
        settings := Function.update ps.settings currentStream
          (updateFilters (ps.settings currentStream)
            (ps.streams currentStream).lowCut.value
            (ps.streams currentStream).highCut.value) }
  | .highCutParam =>
    if (ps.streams currentStream).highCut.value ≤ (ps.streams currentStream).lowCut.value then
      { ps with
        streams := Function.update ps.streams currentStream
          { ps.streams currentStream with
            highCut := restorePreviousValue (ps.streams currentStream).highCut } }
    else
      { ps with
        settings := Function.update ps.settings currentStream
          (updateFilters (ps.settings currentStream)
            (ps.streams currentStream).lowCut.value
            (ps.streams currentStream).highCut.value) }
  | .otherParam => ps

/-- A data-stream descriptor as read by `updateSettings` and `process`:
id, channel count, sample rate, the current cutoff parameter values, the
`enable_stream` flag and the `Channels` selection mask (stream-local
channel indices). -/
structure StreamInfo where
  streamId : ℕ
  channelCount : ℤ
  sampleRate : ℚ
  lowCut : ℚ
  highCut : ℚ
  enabled : Bool
  channels : List ℕ
deriving DecidableEq

/-- Model of `StreamSettings::update(getDataStreams())`: entries of streams still
present are kept, entries of vanished streams are dropped, and newly seen
streams get a default-constructed settings object. -/
def settingsUpdate (m : ℕ → BandstopFilterSettings)
    (streams : List StreamInfo) : ℕ → BandstopFilterSettings :=
  fun sid => if streams.any (fun s => s.streamId = sid) then m sid else emptySettings

/-- The loop body of `BandstopFilter::updateSettings`: for every stream,
`settings[stream->getStreamId()]->createFilters(channelCount, sampleRate,
low_cut, high_cut)`. -/
def rebuildAll (streams : List StreamInfo)
    (acc : ℕ → BandstopFilterSettings) : ℕ → BandstopFilterSettings :=
  streams.foldl
    (fun a s => Function.update a s.streamId
      (createFilters (a s.streamId) s.channelCount s.sampleRate s.lowCut s.highCut))
    acc

/-- Model of `BandstopFilter::updateSettings()`: reconcile the settings map with the
current streams, then unconditionally rebuild every stream's bank. -/
def updateSettings (m : ℕ → BandstopFilterSettings)
    (streams : List StreamInfo) : ℕ → BandstopFilterSettings :=
  rebuildAll streams (settingsUpdate m streams)

/-- The audio buffer, addressed by global channel index
(`buffer.getWritePointer(globalChannelIndex)`). -/
abbrev Buffer := ℕ → List ℚ

/-- The inner loop of `BandstopFilter::process` for one enabled stream:
for every local channel index in the stream's `Channels` mask, apply that
channel's Filter Instance in place to the buffer row at
`getGlobalChannelIndex(streamId, localChannelIndex)`.  The DSP library's
in-place transform (`filter->process(numSamples, &ptr)`) is the parameter
`applyFilter`, a function of the instance looked up at the local index and
of the row's current samples. -/
def processChannelLoop (gci : ℕ → ℕ → ℕ)
    (applyFilter : Option FilterInstance → List ℚ → List ℚ)
    (sid : ℕ) (bank : BandstopFilterSettings) (chans : List ℕ)
    (buffer : Buffer) : Buffer :=
  chans.foldl
    (fun buf localChannelIndex =>
      Function.update buf (gci sid localChannelIndex)
        (applyFilter bank.filters[localChannelIndex]?
          (buf (gci sid localChannelIndex))))
    buffer

/-- Model of `BandstopFilter::process(buffer)`: for every stream, if its
`enable_stream` flag is set, run the channel loop on that stream's bank;
disabled streams are skipped entirely. -/
def process (gci : ℕ → ℕ → ℕ)
    (applyFilter : Option FilterInstance → List ℚ → List ℚ)
    (settingsMap : ℕ → BandstopFilterSettings) (streams : List StreamInfo)
    (buffer : Buffer) : Buffer :=
  streams.foldl
    (fun buf stream =>
      if stream.enabled then
        processChannelLoop gci applyFilter stream.streamId
          (settingsMap stream.streamId) stream.channels buf
      else buf)
    buffer

/-- A Filter Instance is consistently configured when its bandwidth is
positive, i.e. the cutoff pair it was last configured from satisfied
`lowCut < highCut` (center and bandwidth determine the pair uniquely). -/
def instanceConsistent : FilterInstance → Bool
  | none => true
  | some p => decide (0 < p.bandwidth)

/-- A bank is consistent when every configured instance has positive
bandwidth. -/
def bankConsistent (b : BandstopFilterSettings) : Prop :=
  ∀ f ∈ b.filters, instanceConsistent f = true

/-- Concrete bank used by witnesses: two channels at 30 kHz, notch 59--61. -/
def demoBank : BandstopFilterSettings :=
  createFilters emptySettings 2 30000 59 61

/-- Concrete processor state used by witnesses: a pending edit proposing
`low_cut = 70` (previous value 59) against `high_cut = 61`. -/
def demoState : ProcessorState :=
  { streams := fun _ =>
      { lowCut := { value := 70, prevValue := 59 }
        highCut := { value := 61, prevValue := 61 } }
    settings := fun _ => demoBank }

/-- Concrete stream descriptors used by witnesses. -/
def demoStreamA : StreamInfo :=
  { streamId := 1, channelCount := 6, sampleRate := 30000
    lowCut := 59, highCut := 61, enabled := true, channels := [0, 1] }

def demoStreamB : StreamInfo :=
  { streamId := 2, channelCount := 1, sampleRate := 1000
    lowCut := 59, highCut := 61, enabled := false, channels := [0] }

/-- Concrete global-channel-index mapping used by witnesses: stream `sid`
owns the buffer rows `10 * sid, 10 * sid + 1, ...`. -/
def demoGci : ℕ → ℕ → ℕ := fun sid j => 10 * sid + j

/-- Concrete stand-in for the DSP library's in-place transform, used by
witnesses: add 1 to every sample. -/
def demoApply : Option FilterInstance → List ℚ → List ℚ :=
  fun _ xs => xs.map (fun x => x + 1)

/-- Concrete buffer used by witnesses: every row holds `[1, 2, 3]`. -/
def demoBuffer : Buffer := fun _ => [1, 2, 3]

theorem setFilterParameters_sampleRate (st : BandstopFilterSettings)
    (lowCut highCut : ℚ) (channel : ℕ) :
    (setFilterParameters st lowCut highCut channel).sampleRate = st.sampleRate := rfl

theorem foldl_setFilterParameters (idxs : List ℕ) (st : BandstopFilterSettings)
    (lowCut highCut : ℚ) :
    idxs.foldl (fun s n => setFilterParameters s lowCut highCut n) st =
      { st with
        filters := idxs.foldl
          (fun l n => l.set n (some (tunedParams st lowCut highCut))) st.filters } := by
  induction idxs generalizing st with
  | nil => rfl
  | cons n idxs ih =>
    simp only [List.foldl_cons]
    rw [ih]
    rfl

theorem foldl_set_getElem? {α : Type} (idxs : List ℕ) (l : List α) (v : α) (i : ℕ) :
    (idxs.foldl (fun acc n => acc.set n v) l)[i]? =
      if i ∈ idxs ∧ i < l.length then some v else l[i]? := by
  induction idxs generalizing l with
  | nil => simp
  | cons n idxs ih =>
    simp only [List.foldl_cons]
    rw [ih]
    by_cases hni : n = i
    · subst hni
      by_cases hlen : n < l.length
      · simp [List.getElem?_set_self hlen, hlen]
      · rw [List.length_set]
        simp only [hlen, and_false, if_false]
        have hset : l.set n v = l := List.set_eq_of_length_le (Nat.le_of_not_lt hlen)
        simp [hset, hlen]
    · rw [List.length_set, List.getElem?_set_ne hni]
      by_cases hmem : i ∈ idxs
      · simp [hmem]
      · simp [hmem, List.mem_cons, Ne.symm hni]

/-- Characterization of `updateFilters`: every slot of the bank is
overwritten with the tuned parameter block; length and sample rate are kept. -/
theorem updateFilters_eq (st : BandstopFilterSettings) (lowCut highCut : ℚ) :
    updateFilters st lowCut highCut =
      { st with
        filters := List.replicate st.filters.length
          (some (tunedParams st lowCut highCut)) } := by
  unfold updateFilters
  rw [foldl_setFilterParameters]
  congr 1
  apply List.ext_getElem?
  intro i
  rw [foldl_set_getElem?, List.getElem?_replicate]
  by_cases hi : i < st.filters.length
  · simp [hi, List.mem_range]
  · simp [hi, List.mem_range, List.getElem?_eq_none (Nat.le_of_not_lt hi)]

theorem updateFilters_sampleRate (st : BandstopFilterSettings) (lowCut highCut : ℚ) :
    (updateFilters st lowCut highCut).sampleRate = st.sampleRate := by
  rw [updateFilters_eq]

theorem updateFilters_length (st : BandstopFilterSettings) (lowCut highCut : ℚ) :
    (updateFilters st lowCut highCut).filters.length = st.filters.length := by
  rw [updateFilters_eq]
  exact List.length_replicate _ _

/-- Characterization of `createFilters`: the resulting bank has the given
sample rate and exactly `numChannels.toNat` filters, all configured with the
tuned parameter block. -/
theorem createFilters_eq (st : BandstopFilterSettings) (numChannels : ℤ)
    (sampleRate_ lowCut highCut : ℚ) :
    createFilters st numChannels sampleRate_ lowCut highCut =
      { sampleRate := sampleRate_
        filters := List.replicate numChannels.toNat
          (some { sampleRate := sampleRate_
                  order := 4
                  centerFreq := (highCut + lowCut) / 2
                  bandwidth := highCut - lowCut }) } := by
  unfold createFilters
  rw [updateFilters_eq]
  simp [tunedParams]

/-- C8 -- `updateFilters` is idempotent: for every bank state and every
cutoff pair (lc, hc), calling `updateFilters(lc, hc)` twice in succession
leaves every Filter Instance's configuration identical to the configuration
after a single call. -/
theorem updateFilters_idempotent (st : BandstopFilterSettings) (lc hc : ℚ) :
    updateFilters (updateFilters st lc hc) lc hc = updateFilters st lc hc := by
  rw [updateFilters_eq st, updateFilters_eq]
  simp [tunedParams]

/-- C10 -- `updateFilters` changes only the per-instance filter parameters:
the number of Filter Instances and the bank's stored sample rate are
unchanged; in particular on a bank holding zero instances the call changes
nothing at all. -/
theorem updateFilters_frame (st : BandstopFilterSettings) (lc hc : ℚ) :
    (updateFilters st lc hc).filters.length = st.filters.length ∧
      (updateFilters st lc hc).sampleRate = st.sampleRate ∧
      (st.filters = [] → updateFilters st lc hc = st) := by
  refine ⟨updateFilters_length st lc hc, updateFilters_sampleRate st lc hc, ?_⟩
  intro h
  obtain ⟨sr, fl⟩ := st
  simp only at h
  subst h
  rw [updateFilters_eq]
  rfl

/-- Witness for C10: on the empty bank, `updateFilters 59 61` changes
nothing. -/
theorem updateFilters_frame_witness :
    (updateFilters emptySettings 59 61).filters.length = 0 ∧
      (updateFilters emptySettings 59 61).sampleRate = 0 ∧
      updateFilters emptySettings 59 61 = emptySettings :=
  ⟨(updateFilters_frame emptySettings 59 61).1,
   (updateFilters_frame emptySettings 59 61).2.1,
   (updateFilters_frame emptySettings 59 61).2.2 rfl⟩

/-- C4 counterexample -- `createFilters` does not surface any failure on a
precondition violation: called with `lowCut = 100 > highCut = 50` (and
cutoffs above Nyquist of `sampleRate = 1000`... in fact `highCut < lowCut`),
it silently returns a fully built bank whose two filters are configured
with a negative bandwidth of -50, rather than failing. -/
theorem createFilters_no_failure :
    (createFilters emptySettings 2 1000 100 50).filters =
      [some { sampleRate := 1000, order := 4, centerFreq := 75, bandwidth := -50 },
       some { sampleRate := 1000, order := 4, centerFreq := 75, bandwidth := -50 }] := by
  rw [createFilters_eq]
  norm_num [List.replicate]

/-- C4 amended -- `createFilters` performs no precondition validation and
has no failure path: for every argument tuple, valid or not, it silently
builds a bank with `max numChannels 0` instances, every one configured with
the given (possibly invalid) sample rate and cutoffs. -/
theorem createFilters_unconditional (st : BandstopFilterSettings) (n : ℤ)
    (sr lc hc : ℚ) :
    (createFilters st n sr lc hc).filters.length = n.toNat ∧
      (createFilters st n sr lc hc).sampleRate = sr ∧
      ∀ f ∈ (createFilters st n sr lc hc).filters,
        f = some { sampleRate := sr
                   order := 4
                   centerFreq := (hc + lc) / 2
                   bandwidth := hc - lc } := by
  rw [createFilters_eq]
  exact ⟨List.length_replicate _ _, rfl, fun f hf => List.eq_of_mem_replicate hf⟩

/-- C1 -- For every channelCount n > 0, sample rate sr > 0, and cutoffs with
lowCut < highCut (both within the valid range 0.1--15000 and highCut below
Nyquist), after `createFilters(n, sr, lowCut, highCut)` the bank holds
exactly n Filter Instances, and every instance is configured with sample
rate sr, order 4, center frequency (lowCut + highCut) / 2 and bandwidth
highCut - lowCut. -/
theorem createFilters_configures_bank (st : BandstopFilterSettings)
    (n : ℤ) (sr lowCut highCut : ℚ)
    (hn : 0 < n) (hsr : 0 < sr)
    (hlo : 1 / 10 ≤ lowCut) (hhi : highCut ≤ 15000)
    (hlt : lowCut < highCut) (hny : highCut < sr / 2) :
    (createFilters st n sr lowCut highCut).filters.length = n.toNat ∧
      ∀ f ∈ (createFilters st n sr lowCut highCut).filters,
        f = some { sampleRate := sr
                   order := 4
                   centerFreq := (lowCut + highCut) / 2
                   bandwidth := highCut - lowCut } := by
  rw [createFilters_eq]
  constructor
  · exact List.length_replicate _ _
  · intro f hf
    rw [List.eq_of_mem_replicate hf, add_comm highCut lowCut]

/-- Witness for C1 at Scenario 1: `createFilters(4, 30000, 59, 61)` yields
4 filters with order 4, center 60, bandwidth 2. -/
theorem createFilters_configures_bank_witness :
    (createFilters emptySettings 4 30000 59 61).filters.length = 4 ∧
      ∀ f ∈ (createFilters emptySettings 4 30000 59 61).filters,
        f = some { sampleRate := 30000
                   order := 4
                   centerFreq := (59 + 61) / 2
                   bandwidth := 61 - 59 } :=
  createFilters_configures_bank emptySettings 4 30000 59 61
    (by norm_num) (by norm_num) (by norm_num) (by norm_num) (by norm_num) (by norm_num)

/-- C2 -- For every stream, a cutoff edit violating the ordering (an edited
low cut with newLowCut >= currentHighCut, or an edited high cut with
newHighCut <= currentLowCut) is rejected: the edited field is restored to
its previous value, the other field is untouched, and the whole settings
map -- in particular the stream's Filter Bank and every filter in it -- is
left completely unchanged. -/
theorem cutoffEditRejected (ps : ProcessorState) (sid : ℕ) :
    ((ps.streams sid).lowCut.value ≥ (ps.streams sid).highCut.value →
      (parameterValueChanged ps sid .lowCutParam).settings = ps.settings ∧
        ((parameterValueChanged ps sid .lowCutParam).streams sid).lowCut.value =
          (ps.streams sid).lowCut.prevValue ∧
        ((parameterValueChanged ps sid .lowCutParam).streams sid).highCut =
          (ps.streams sid).highCut) ∧
    ((ps.streams sid).highCut.value ≤ (ps.streams sid).lowCut.value →
      (parameterValueChanged ps sid .highCutParam).settings = ps.settings ∧
        ((parameterValueChanged ps sid .highCutParam).streams sid).highCut.value =
          (ps.streams sid).highCut.prevValue ∧
        ((parameterValueChanged ps sid .highCutParam).streams sid).lowCut =
          (ps.streams sid).lowCut) := by
  constructor
  · intro h
    simp [parameterValueChanged, h, restorePreviousValue]
  · intro h
    simp [parameterValueChanged, h, restorePreviousValue]

/-- Witness for C2 at Scenario 3: proposing `low_cut = 70` against
`high_cut = 61` is rejected; the low cut goes back to its previous value
and no bank changes. -/
theorem cutoffEditRejected_witness :
    (parameterValueChanged demoState 0 .lowCutParam).settings = demoState.settings ∧
      ((parameterValueChanged demoState 0 .lowCutParam).streams 0).lowCut.value =
        (demoState.streams 0).lowCut.prevValue ∧
      ((parameterValueChanged demoState 0 .lowCutParam).streams 0).highCut =
        (demoState.streams 0).highCut :=
  (cutoffEditRejected demoState 0).1 (by norm_num [demoState])

/-- Positive bandwidth of every instance after a consistent retune. -/
theorem bankConsistent_updateFilters (b : BandstopFilterSettings) (lc hc : ℚ)
    (h : lc < hc) : bankConsistent (updateFilters b lc hc) := by
  intro f hf
  rw [updateFilters_eq] at hf
  rw [List.eq_of_mem_replicate hf]
  simp [instanceConsistent, tunedParams, sub_pos, h]

/-- C3 -- After any completed cutoff-change handling, either the edit was
rejected and the settings map (hence every bank's last-configured pair) is
unchanged, or the bank of the edited stream was retuned via `updateFilters`
with exactly the stream's now-current pair, which satisfies
`lowCut < highCut` strictly; consequently every bank is either untouched or
left with all instances at positive bandwidth. -/
theorem cutoffChangeConsistent (ps : ProcessorState) (sid : ℕ)
    (param : EditedParam) :
    ((parameterValueChanged ps sid param).settings = ps.settings ∨
      (∃ lc hc, lc < hc ∧
        lc = ((parameterValueChanged ps sid param).streams sid).lowCut.value ∧
        hc = ((parameterValueChanged ps sid param).streams sid).highCut.value ∧
        (parameterValueChanged ps sid param).settings =
          Function.update ps.settings sid
            (updateFilters (ps.settings sid) lc hc))) ∧
    (∀ id, (parameterValueChanged ps sid param).settings id = ps.settings id ∨
      bankConsistent ((parameterValueChanged ps sid param).settings id)) := by
  cases param with
  | lowCutParam =>
    by_cases h : (ps.streams sid).lowCut.value ≥ (ps.streams sid).highCut.value
    · constructor
      · left
        simp [parameterValueChanged, h]
      · intro id
        left
        simp [parameterValueChanged, h]
    · have hlt : (ps.streams sid).lowCut.value < (ps.streams sid).highCut.value :=
        lt_of_not_ge h
      constructor
      · right
        refine ⟨(ps.streams sid).lowCut.value, (ps.streams sid).highCut.value,
          hlt, ?_, ?_, ?_⟩ <;> simp [parameterValueChanged, h]
      · intro id
        by_cases hid : id = sid
        · subst hid
          right
          simp only [parameterValueChanged, h, if_false]
          rw [Function.update_same]
          exact bankConsistent_updateFilters _ _ _ hlt
        · left
          simp only [parameterValueChanged, h, if_false]
          exact Function.update_noteq hid _ _
  | highCutParam =>
    by_cases h : (ps.streams sid).highCut.value ≤ (ps.streams sid).lowCut.value
    · constructor
      · left
        simp [parameterValueChanged, h]
      · intro id
        left
        simp [parameterValueChanged, h]
    · have hlt : (ps.streams sid).lowCut.value < (ps.streams sid).highCut.value :=
        lt_of_not_ge h
      constructor
      · right
        refine ⟨(ps.streams sid).lowCut.value, (ps.streams sid).highCut.value,
          hlt, ?_, ?_, ?_⟩ <;> simp [parameterValueChanged, h]
      · intro id
        by_cases hid : id = sid
        · subst hid
          right
          simp only [parameterValueChanged, h, if_false]
          rw [Function.update_same]
          exact bankConsistent_updateFilters _ _ _ hlt
        · left
          simp only [parameterValueChanged, h, if_false]
          exact Function.update_noteq hid _ _
  | otherParam =>
    exact ⟨Or.inl rfl, fun id => Or.inl rfl⟩

/-- C9 -- A cutoff-change notification for stream `sid` (accepted or
rejected) leaves the Filter Bank of every other stream unchanged. -/
theorem cutoffChangeIsolation (ps : ProcessorState) (sid other : ℕ)
    (param : EditedParam) (h : other ≠ sid) :
    (parameterValueChanged ps sid param).settings other = ps.settings other := by
  cases param with
  | lowCutParam =>
    by_cases hcond : (ps.streams sid).lowCut.value ≥ (ps.streams sid).highCut.value
    · simp [parameterValueChanged, hcond]
    · simp only [parameterValueChanged, hcond, if_false]
      exact Function.update_noteq h _ _
  | highCutParam =>
    by_cases hcond : (ps.streams sid).highCut.value ≤ (ps.streams sid).lowCut.value
    · simp [parameterValueChanged, hcond]
    · simp only [parameterValueChanged, hcond, if_false]
      exact Function.update_noteq h _ _
  | otherParam => rfl

/-- Witness for C9: the rejected edit on stream 0 leaves stream 1's bank
untouched. -/
theorem cutoffChangeIsolation_witness :
    (parameterValueChanged demoState 0 .lowCutParam).settings 1 =
      demoState.settings 1 :=
  cutoffChangeIsolation demoState 0 1 .lowCutParam (by decide)

theorem rebuildAll_cons (t : StreamInfo) (rest : List StreamInfo)
    (acc : ℕ → BandstopFilterSettings) :
    rebuildAll (t :: rest) acc =
      rebuildAll rest
        (Function.update acc t.streamId
          (createFilters (acc t.streamId) t.channelCount t.sampleRate
            t.lowCut t.highCut)) := rfl

theorem rebuildAll_frame (streams : List StreamInfo)
    (acc : ℕ → BandstopFilterSettings) (sid : ℕ)
    (h : ∀ t ∈ streams, t.streamId ≠ sid) :
    rebuildAll streams acc sid = acc sid := by
  induction streams generalizing acc with
  | nil => rfl
  | cons t rest ih =>
    rw [rebuildAll_cons,
      ih _ (fun r hr => h r (List.mem_cons_of_mem t hr))]
    exact Function.update_noteq
      (Ne.symm (h t (List.mem_cons_self t rest))) _ _

theorem createFilters_ignores_prior (a b : BandstopFilterSettings)
    (n : ℤ) (sr lc hc : ℚ) :
    createFilters a n sr lc hc = createFilters b n sr lc hc := rfl

theorem rebuildAll_get (streams : List StreamInfo)
    (acc : ℕ → BandstopFilterSettings)
    (hnodup : (streams.map StreamInfo.streamId).Nodup)
    (s : StreamInfo) (hs : s ∈ streams) :
    rebuildAll streams acc s.streamId =
      createFilters emptySettings s.channelCount s.sampleRate
        s.lowCut s.highCut := by
  induction streams generalizing acc with
  | nil => cases hs
  | cons t rest ih =>
    rw [List.map_cons, List.nodup_cons] at hnodup
    rcases List.mem_cons.mp hs with heq | hmem
    · subst heq
      rw [rebuildAll_cons, rebuildAll_frame rest _ s.streamId
        (fun r hr hcontra =>
          hnodup.1 (hcontra ▸ List.mem_map_of_mem StreamInfo.streamId hr)),
        Function.update_same]
      exact createFilters_ignores_prior _ _ _ _ _ _
    · rw [rebuildAll_cons]
      exact ih _ hnodup.2 hmem

/-- C5 -- On a reconciliation pass (`updateSettings`), for every currently
known stream (stream ids being distinct), the stream's bank ends up as a
fresh `createFilters` of the stream's current channel count, sample rate
and currently configured cutoffs -- a full, unconditional rebuild whose
result is independent of whatever bank the stream had before. -/
theorem updateSettings_rebuilds (m : ℕ → BandstopFilterSettings)
    (streams : List StreamInfo)
    (hnodup : (streams.map StreamInfo.streamId).Nodup)
    (s : StreamInfo) (hs : s ∈ streams) :
    updateSettings m streams s.streamId =
      createFilters emptySettings s.channelCount s.sampleRate
        s.lowCut s.highCut :=
  rebuildAll_get streams _ hnodup s hs

/-- Witness for C5 at Scenario 4: stream 1 previously had a 2-channel bank
(`demoBank`) and now reports 6 channels; reconciliation rebuilds its bank
as `createFilters` of 6 channels, discarding the old bank. -/
theorem updateSettings_rebuilds_witness :
    updateSettings (fun _ => demoBank) [demoStreamA, demoStreamB]
        demoStreamA.streamId =
      createFilters emptySettings demoStreamA.channelCount
        demoStreamA.sampleRate demoStreamA.lowCut demoStreamA.highCut :=
  updateSettings_rebuilds (fun _ => demoBank) [demoStreamA, demoStreamB]
    (by simp [demoStreamA, demoStreamB]) demoStreamA
    (List.mem_cons_self _ _)

theorem processChannelLoop_cons (gci : ℕ → ℕ → ℕ)
    (applyFilter : Option FilterInstance → List ℚ → List ℚ)
    (sid : ℕ) (bank : BandstopFilterSettings) (c : ℕ) (cs : List ℕ)
    (buffer : Buffer) :
    processChannelLoop gci applyFilter sid bank (c :: cs) buffer =
      processChannelLoop gci applyFilter sid bank cs
        (Function.update buffer (gci sid c)
          (applyFilter bank.filters[c]? (buffer (gci sid c)))) := rfl

theorem processChannelLoop_frame (gci : ℕ → ℕ → ℕ)
    (applyFilter : Option FilterInstance → List ℚ → List ℚ)
    (sid : ℕ) (bank : BandstopFilterSettings) (chans : List ℕ)
    (buffer : Buffer) (g : ℕ)
    (h : ∀ j ∈ chans, gci sid j ≠ g) :
    processChannelLoop gci applyFilter sid bank chans buffer g = buffer g := by
  induction chans generalizing buffer with
  | nil => rfl
  | cons c cs ih =>
    rw [processChannelLoop_cons,
      ih _ (fun j hj => h j (List.mem_cons_of_mem c hj))]
    exact Function.update_noteq
      (Ne.symm (h c (List.mem_cons_self c cs))) _ _

theorem process_cons (gci : ℕ → ℕ → ℕ)
    (applyFilter : Option FilterInstance → List ℚ → List ℚ)
    (settingsMap : ℕ → BandstopFilterSettings) (t : StreamInfo)
    (rest : List StreamInfo) (buffer : Buffer) :
    process gci applyFilter settingsMap (t :: rest) buffer =
      process gci applyFilter settingsMap rest
        (if t.enabled then
          processChannelLoop gci applyFilter t.streamId
            (settingsMap t.streamId) t.channels buffer
        else buffer) := rfl

theorem process_frame (gci : ℕ → ℕ → ℕ)
    (applyFilter : Option FilterInstance → List ℚ → List ℚ)
    (settingsMap : ℕ → BandstopFilterSettings) (streams : List StreamInfo)
    (buffer : Buffer) (g : ℕ)
    (h : ∀ t ∈ streams, t.enabled = true → ∀ j ∈ t.channels,
      gci t.streamId j ≠ g) :
    process gci applyFilter settingsMap streams buffer g = buffer g := by
  induction streams generalizing buffer with
  | nil => rfl
  | cons t rest ih =>
    rw [process_cons,
      ih _ (fun r hr => h r (List.mem_cons_of_mem t hr))]
    by_cases ht : t.enabled
    · rw [if_pos ht]
      exact processChannelLoop_frame _ _ _ _ _ _ _
        (h t (List.mem_cons_self t rest) ht)
    · rw [if_neg ht]

/-- C6 -- For every stream whose enabled flag is false, `process` performs
no filtering on that stream: every buffer row belonging to one of its
channels (a row `gci s.streamId i`, where distinct streams own disjoint
buffer rows and stream ids are unique) is numerically identical after the
call. -/
theorem disabledStreamUntouched (gci : ℕ → ℕ → ℕ)
    (applyFilter : Option FilterInstance → List ℚ → List ℚ)
    (settingsMap : ℕ → BandstopFilterSettings) (streams : List StreamInfo)
    (buffer : Buffer) (s : StreamInfo) (g i : ℕ)
    (hs : s ∈ streams) (hdis : s.enabled = false)
    (hg : g = gci s.streamId i)
    (huniq : ∀ t ∈ streams, t.streamId = s.streamId → t = s)
    (hsep : ∀ t ∈ streams, t.streamId ≠ s.streamId → ∀ j ∈ t.channels,
      gci t.streamId j ≠ g) :
    process gci applyFilter settingsMap streams buffer g = buffer g := by
  apply process_frame
  intro t ht hen j hj
  by_cases hid : t.streamId = s.streamId
  · have heq := huniq t ht hid
    subst heq
    rw [hdis] at hen
    cases hen
  · exact hsep t ht hid j hj

/-- Witness for C6 at Scenario 2: stream 2 is disabled; its buffer row
`demoGci 2 5 = 25` is untouched by `process`. -/
theorem disabledStreamUntouched_witness :
    process demoGci demoApply (fun _ => demoBank)
        [demoStreamA, demoStreamB] demoBuffer (demoGci 2 5) =
      demoBuffer (demoGci 2 5) :=
  disabledStreamUntouched demoGci demoApply (fun _ => demoBank)
    [demoStreamA, demoStreamB] demoBuffer demoStreamB (demoGci 2 5) 5
    (by simp) rfl rfl
    (by intro t ht h1
        rcases List.mem_cons.mp ht with h | h
        · subst h
          exact absurd h1 (by decide)
        · exact List.mem_singleton.mp h)
    (by intro t ht h1 j hj
        rcases List.mem_cons.mp ht with h | h
        · subst h
          rcases List.mem_cons.mp hj with h2 | h2
          · subst h2
            decide
          · have h3 := List.mem_singleton.mp h2
            subst h3
            decide
        · have h3 := List.mem_singleton.mp h
          subst h3
          exact absurd rfl h1)

/-- C7 -- For every enabled stream, `process` modifies only the buffer rows
of channels whose stream-local index is in the stream's `Channels` mask:
the row of any local index `i` outside the mask (with the stream's
row mapping injective, stream ids unique, and distinct streams owning
disjoint buffer rows) keeps all its samples unchanged. -/
theorem unselectedChannelUntouched (gci : ℕ → ℕ → ℕ)
    (applyFilter : Option FilterInstance → List ℚ → List ℚ)
    (settingsMap : ℕ → BandstopFilterSettings) (streams : List StreamInfo)
    (buffer : Buffer) (s : StreamInfo) (i : ℕ)
    (hs : s ∈ streams) (hen : s.enabled = true)
    (hmask : i ∉ s.channels)
    (hinj : Function.Injective (gci s.streamId))
    (huniq : ∀ t ∈ streams, t.streamId = s.streamId → t = s)
    (hsep : ∀ t ∈ streams, t.streamId ≠ s.streamId → ∀ j ∈ t.channels,
      gci t.streamId j ≠ gci s.streamId i) :
    process gci applyFilter settingsMap streams buffer (gci s.streamId i) =
      buffer (gci s.streamId i) := by
  apply process_frame
  intro t ht hten j hj
  by_cases hid : t.streamId = s.streamId
  · have heq := huniq t ht hid
    subst heq
    intro hcontra
    exact hmask (hinj hcontra ▸ hj)
  · exact hsep t ht hid j hj

/-- Witness for C7: stream 1 is enabled with mask `[0, 1]`; the row of its
unselected local channel 5 (`demoGci 1 5 = 15`) is untouched by `process`. -/
theorem unselectedChannelUntouched_witness :
    process demoGci demoApply (fun _ => demoBank)
        [demoStreamA, demoStreamB] demoBuffer (demoGci demoStreamA.streamId 5) =
      demoBuffer (demoGci demoStreamA.streamId 5) :=
  unselectedChannelUntouched demoGci demoApply (fun _ => demoBank)
    [demoStreamA, demoStreamB] demoBuffer demoStreamA 5
    (List.mem_cons_self _ _) rfl (by decide)
    (by intro a b hab
        simp only [demoGci, demoStreamA] at hab ⊢
        omega)
    (by intro t ht h1
        rcases List.mem_cons.mp ht with h | h
        · exact h
        · have h3 := List.mem_singleton.mp h
          subst h3
          exact absurd h1 (by decide))
    (by intro t ht h1 j hj
        rcases List.mem_cons.mp ht with h | h
        · subst h
          exact absurd rfl h1
        · have h3 := List.mem_singleton.mp h
          subst h3
          have h4 := List.mem_singleton.mp hj
          subst h4
          decide)
